import Mathlib

set_option linter.unusedVariables false
set_option maxHeartbeats 1000000

/-!
Shallow embedding of three Gymnasium source files:
  gymnasium/envs/phys2d/conversion.py  (the JaxEnv adapter and _convert_jax_to_numpy),
  gymnasium/wrappers/clip_action.py    (ClipAction wrappers),
  gymnasium/wrappers/flatten_observation.py  (FlattenObservation wrappers).
External collaborators that the adapter calls into (jax.random, numpy,
gymnasium.spaces, gymnasium.functional.FuncEnv, gymnasium.utils.seeding) are
not part of the three source files; they are modelled explicitly, each with a
doc comment saying what it stands for.
-/

/-- A plain multidimensional numeric array: a shape and row-major data. Stands
for both jax and numpy ndarrays; entries are modelled as rationals (exact
values; no claim here depends on floating-point rounding). -/
structure NDArr where
  shape : List Nat
  data : List Rat
  deriving DecidableEq, Repr

/-- A value as produced by the function bundle and walked by
`_convert_jax_to_numpy` (conversion.py lines 107-121): a jax array, a tuple,
a list, a dict with string keys, or a value of any other type, carried with
its string rendering (what Python would interpolate into the error message). -/
inductive JaxVal where
  | arr (a : NDArr)
  | tup (elems : List JaxVal)
  | lst (elems : List JaxVal)
  | dct (items : List (String × JaxVal))
  | other (str : String)

/-- A numpy-based container as returned by `_convert_jax_to_numpy`: a numpy
array, or a tuple/list/dict of converted values. -/
inductive NpVal where
  | arr (a : NDArr)
  | tup (elems : List NpVal)
  | lst (elems : List NpVal)
  | dct (items : List (String × NpVal))

/-- The structural skeleton of a value: container kinds, element order,
mapping keys and the arrays at the leaves.  Used to state that conversion
preserves structure. -/
inductive Skel where
  | arr (a : NDArr)
  | tup (elems : List Skel)
  | lst (elems : List Skel)
  | dct (items : List (String × Skel))
  | unconvertible

mutual

/-- Embedding of `_convert_jax_to_numpy` (conversion.py lines 107-121):
jax arrays pass through np.asarray (which keeps shape and data), tuples,
lists and dicts are rebuilt around converted members, and anything else
raises `TypeError(f"Cannot convert {element} to numpy")`. -/
def _convert_jax_to_numpy : JaxVal → Except String NpVal
  | JaxVal.arr a => Except.ok (NpVal.arr a)
  | JaxVal.tup xs => Except.map NpVal.tup (convertElems xs)
  | JaxVal.lst xs => Except.map NpVal.lst (convertElems xs)
  | JaxVal.dct kvs => Except.map NpVal.dct (convertItems kvs)
  | JaxVal.other s => Except.error ("Cannot convert " ++ s ++ " to numpy")

/-- The tuple/list comprehensions of conversion.py lines 115-117: members are
converted left to right and the first raised error propagates. -/
def convertElems : List JaxVal → Except String (List NpVal)
  | [] => Except.ok []
  | x :: xs =>
    match _convert_jax_to_numpy x with
    | Except.error m => Except.error m
    | Except.ok y =>
      match convertElems xs with
      | Except.error m => Except.error m
      | Except.ok ys => Except.ok (y :: ys)

/-- The dict comprehension of conversion.py line 119: values are converted in
iteration order with keys preserved; the first raised error propagates. -/
def convertItems : List (String × JaxVal) → Except String (List (String × NpVal))
  | [] => Except.ok []
  | (k, v) :: rest =>
    match _convert_jax_to_numpy v with
    | Except.error m => Except.error m
    | Except.ok w =>
      match convertItems rest with
      | Except.error m => Except.error m
      | Except.ok ws => Except.ok ((k, w) :: ws)

end

mutual

/-- True when a value is built only from the four supported type cases, so
that the normalizer recognizes every node. -/
def noOther : JaxVal → Bool
  | JaxVal.arr _ => true
  | JaxVal.tup xs => noOtherElems xs
  | JaxVal.lst xs => noOtherElems xs
  | JaxVal.dct kvs => noOtherItems kvs
  | JaxVal.other _ => false

def noOtherElems : List JaxVal → Bool
  | [] => true
  | x :: xs => noOther x && noOtherElems xs

def noOtherItems : List (String × JaxVal) → Bool
  | [] => true
  | kv :: rest => noOther kv.2 && noOtherItems rest

end

mutual

/-- Skeleton of an input value. -/
def skelJ : JaxVal → Skel
  | JaxVal.arr a => Skel.arr a
  | JaxVal.tup xs => Skel.tup (skelJElems xs)
  | JaxVal.lst xs => Skel.lst (skelJElems xs)
  | JaxVal.dct kvs => Skel.dct (skelJItems kvs)
  | JaxVal.other _ => Skel.unconvertible

def skelJElems : List JaxVal → List Skel
  | [] => []
  | x :: xs => skelJ x :: skelJElems xs

def skelJItems : List (String × JaxVal) → List (String × Skel)
  | [] => []
  | (k, v) :: rest => (k, skelJ v) :: skelJItems rest

end

mutual

/-- Skeleton of a converted value. -/
def skelN : NpVal → Skel
  | NpVal.arr a => Skel.arr a
  | NpVal.tup xs => Skel.tup (skelNElems xs)
  | NpVal.lst xs => Skel.lst (skelNElems xs)
  | NpVal.dct kvs => Skel.dct (skelNItems kvs)

def skelNElems : List NpVal → List Skel
  | [] => []
  | x :: xs => skelN x :: skelNElems xs

def skelNItems : List (String × NpVal) → List (String × Skel)
  | [] => []
  | (k, v) :: rest => (k, skelN v) :: skelNItems rest

end

mutual

theorem conv_ok : ∀ v : JaxVal, noOther v = true →
    ∃ w, _convert_jax_to_numpy v = Except.ok w ∧ skelN w = skelJ v
  | JaxVal.arr a, _ => ⟨NpVal.arr a, rfl, rfl⟩
  | JaxVal.tup xs, h => by
    obtain ⟨ys, hys, hsk⟩ := convElems_ok xs (by simpa [noOther] using h)
    exact ⟨NpVal.tup ys, by simp [_convert_jax_to_numpy, hys, Except.map],
      by simp [skelN, skelJ, hsk]⟩
  | JaxVal.lst xs, h => by
    obtain ⟨ys, hys, hsk⟩ := convElems_ok xs (by simpa [noOther] using h)
    exact ⟨NpVal.lst ys, by simp [_convert_jax_to_numpy, hys, Except.map],
      by simp [skelN, skelJ, hsk]⟩
  | JaxVal.dct kvs, h => by
    obtain ⟨ws, hws, hsk⟩ := convItems_ok kvs (by simpa [noOther] using h)
    exact ⟨NpVal.dct ws, by simp [_convert_jax_to_numpy, hws, Except.map],
      by simp [skelN, skelJ, hsk]⟩
  | JaxVal.other s, h => by simp [noOther] at h

theorem convElems_ok : ∀ xs : List JaxVal, noOtherElems xs = true →
    ∃ ys, convertElems xs = Except.ok ys ∧ skelNElems ys = skelJElems xs
  | [], _ => ⟨[], rfl, rfl⟩
  | x :: xs, h => by
    have h1 : noOther x = true := by
      have := h; simp [noOtherElems, Bool.and_eq_true] at this; exact this.1
    have h2 : noOtherElems xs = true := by
      have := h; simp [noOtherElems, Bool.and_eq_true] at this; exact this.2
    obtain ⟨y, hy, hsy⟩ := conv_ok x h1
    obtain ⟨ys, hys, hsk⟩ := convElems_ok xs h2
    exact ⟨y :: ys, by simp [convertElems, hy, hys],
      by simp [skelNElems, skelJElems, hsy, hsk]⟩

theorem convItems_ok : ∀ kvs : List (String × JaxVal), noOtherItems kvs = true →
    ∃ ws, convertItems kvs = Except.ok ws ∧ skelNItems ws = skelJItems kvs
  | [], _ => ⟨[], rfl, rfl⟩
  | (k, v) :: rest, h => by
    have h1 : noOther v = true := by
      have := h; simp [noOtherItems, Bool.and_eq_true] at this; exact this.1
    have h2 : noOtherItems rest = true := by
      have := h; simp [noOtherItems, Bool.and_eq_true] at this; exact this.2
    obtain ⟨w, hw, hsw⟩ := conv_ok v h1
    obtain ⟨ws, hws, hsk⟩ := convItems_ok rest h2
    exact ⟨(k, w) :: ws, by simp [convertItems, hw, hws],
      by simp [skelNItems, skelJItems, hsw, hsk]⟩

end

mutual

theorem conv_err : ∀ v : JaxVal, noOther v = false →
    ∃ m, _convert_jax_to_numpy v = Except.error m
  | JaxVal.arr a, h => by simp [noOther] at h
  | JaxVal.tup xs, h => by
    obtain ⟨m, hm⟩ := convElems_err xs (by simpa [noOther] using h)
    exact ⟨m, by simp [_convert_jax_to_numpy, hm, Except.map]⟩
  | JaxVal.lst xs, h => by
    obtain ⟨m, hm⟩ := convElems_err xs (by simpa [noOther] using h)
    exact ⟨m, by simp [_convert_jax_to_numpy, hm, Except.map]⟩
  | JaxVal.dct kvs, h => by
    obtain ⟨m, hm⟩ := convItems_err kvs (by simpa [noOther] using h)
    exact ⟨m, by simp [_convert_jax_to_numpy, hm, Except.map]⟩
  | JaxVal.other s, _ => ⟨"Cannot convert " ++ s ++ " to numpy", rfl⟩

theorem convElems_err : ∀ xs : List JaxVal, noOtherElems xs = false →
    ∃ m, convertElems xs = Except.error m
  | [], h => by simp [noOtherElems] at h
  | x :: xs, h => by
    cases hx : noOther x with
    | false =>
      obtain ⟨m, hm⟩ := conv_err x hx
      exact ⟨m, by simp [convertElems, hm]⟩
    | true =>
      have h2 : noOtherElems xs = false := by
        have := h; simp [noOtherElems, hx] at this; exact this
      obtain ⟨y, hy, _⟩ := conv_ok x hx
      obtain ⟨m, hm⟩ := convElems_err xs h2
      exact ⟨m, by simp [convertElems, hy, hm]⟩

theorem convItems_err : ∀ kvs : List (String × JaxVal), noOtherItems kvs = false →
    ∃ m, convertItems kvs = Except.error m
  | [], h => by simp [noOtherItems] at h
  | (k, v) :: rest, h => by
    cases hv : noOther v with
    | false =>
      obtain ⟨m, hm⟩ := conv_err v hv
      exact ⟨m, by simp [convertItems, hm]⟩
    | true =>
      have h2 : noOtherItems rest = false := by
        have := h; simp [noOtherItems, hv] at this; exact this
      obtain ⟨w, hw, _⟩ := conv_ok v hv
      obtain ⟨m, hm⟩ := convItems_err rest h2
      exact ⟨m, by simp [convertItems, hw, hm]⟩

end

/-- Claim C7: the array-representation normalizer is total over arrays,
tuples, lists and mappings — arrays pass through to plain arrays unchanged,
containers are rebuilt with kind, element order and mapping keys preserved —
a value containing any unsupported node raises instead of being silently
passed through, and an unsupported value is reported with a type error whose
message includes the offending value. -/
theorem convert_jax_total_and_error :
    (∀ a : NDArr, _convert_jax_to_numpy (JaxVal.arr a) = Except.ok (NpVal.arr a))
    ∧ (∀ v : JaxVal, noOther v = true →
        ∃ w, _convert_jax_to_numpy v = Except.ok w ∧ skelN w = skelJ v)
    ∧ (∀ v : JaxVal, noOther v = false →
        ∃ m, _convert_jax_to_numpy v = Except.error m)
    ∧ (∀ r : String, _convert_jax_to_numpy (JaxVal.other r) =
        Except.error ("Cannot convert " ++ r ++ " to numpy")) :=
  ⟨fun _ => rfl, conv_ok, conv_err, fun _ => rfl⟩

/-- A small nested supported value used to instantiate C7. -/
def cJV : JaxVal :=
  JaxVal.dct [("a", JaxVal.arr ⟨[1], [0]⟩), ("b", JaxVal.lst [JaxVal.tup []])]

theorem convert_jax_total_and_error_witness :
    (∃ w, _convert_jax_to_numpy cJV = Except.ok w ∧ skelN w = skelJ cJV)
    ∧ (∃ m, _convert_jax_to_numpy (JaxVal.tup [JaxVal.other "x"]) = Except.error m)
    ∧ _convert_jax_to_numpy (JaxVal.other "5") =
        Except.error "Cannot convert 5 to numpy" :=
  ⟨convert_jax_total_and_error.2.1 cJV rfl,
   convert_jax_total_and_error.2.2.1 (JaxVal.tup [JaxVal.other "x"]) rfl,
   convert_jax_total_and_error.2.2.2 "5"⟩

/-- Model of np.maximum on scalars (np.clip is documented as equivalent to
np.minimum(a_max, np.maximum(a, a_min))). -/
def np_maximum (x y : Rat) : Rat := if x ≤ y then y else x

/-- Model of np.minimum on scalars. -/
def np_minimum (x y : Rat) : Rat := if x ≤ y then x else y

/-- One component of np.clip(a, low, high). -/
def np_clip1 (x l h : Rat) : Rat := np_minimum h (np_maximum x l)

/-- Model of np.clip on a one-axis array against componentwise bounds. -/
def np_clip : List Rat → List Rat → List Rat → List Rat
  | x :: xs, l :: ls, h :: hs => np_clip1 x l h :: np_clip xs ls hs
  | _, _, _ => []

/-- Componentwise comparison of two equal-length numeric vectors. -/
def leList : List Rat → List Rat → Bool
  | [], [] => true
  | x :: xs, y :: ys => decide (x ≤ y) && leList xs ys
  | _, _ => false

/-- An action as passed to JaxEnv.step: a scalar integer (discrete spaces) or
a one-axis numeric array (box-like spaces). -/
inductive PyAction where
  | ints (i : Int)
  | arr (xs : List Rat)
  deriving DecidableEq, Repr

/-- The rendering Python's repr would interpolate for f-string purposes;
for model arrays a fixed description stands in for numpy's repr. -/
def PyAction.pyRepr : PyAction → String
  | PyAction.ints i => toString i
  | PyAction.arr xs => "array of length " ++ toString xs.length

/-- The rendering of type(action) in the model. -/
def PyAction.pyTypeName : PyAction → String
  | PyAction.ints _ => "int"
  | PyAction.arr _ => "ndarray"

/-- The message of conversion.py line 76: f-string of the action's repr and
type followed by "invalid". -/
def invalidActionMsg (a : PyAction) : String :=
  PyAction.pyRepr a ++ " (" ++ PyAction.pyTypeName a ++ ") invalid"

/-- Modelled from the spec: "Space-typed containers (external): define valid
value domains for observations/actions (e.g., bounded real vectors, discrete
sets) and provide membership testing" — gymnasium.spaces is not under src/.
box carries per-component bounds; discrete and multiBinary are two distinct
non-box kinds (the adapter treats every non-box kind alike). -/
inductive GymSpace where
  | box (low high : List Rat)
  | discrete (n : Nat) (start : Int)
  | multiBinary (n : Nat)
  deriving DecidableEq, Repr

/-- The isinstance(space, gym.spaces.Box) check of conversion.py line 43. -/
def GymSpace.isBox : GymSpace → Bool
  | GymSpace.box _ _ => true
  | _ => false

/-- Modelled from the spec: space membership testing (space.contains). -/
def GymSpace.contains : GymSpace → PyAction → Bool
  | GymSpace.box low high, PyAction.arr xs =>
    decide (xs.length = low.length) && leList low xs && leList xs high
  | GymSpace.box _ _, PyAction.ints _ => false
  | GymSpace.discrete n start, PyAction.ints i =>
    decide (start ≤ i) && decide (i < start + n)
  | GymSpace.discrete _ _, PyAction.arr _ => false
  | GymSpace.multiBinary n, PyAction.arr xs =>
    decide (xs.length = n) && xs.all (fun x => decide (x = 0) || decide (x = 1))
  | GymSpace.multiBinary _, PyAction.ints _ => false

def GymSpace.lowBounds : GymSpace → List Rat
  | GymSpace.box low _ => low
  | _ => []

def GymSpace.highBounds : GymSpace → List Rat
  | GymSpace.box _ high => high
  | _ => []

/-- np.clip applied to an action against box bounds (conversion.py line 73);
a scalar action broadcasts against the bound arrays as numpy would. -/
def pyClipAction (low high : List Rat) : PyAction → PyAction
  | PyAction.arr xs => PyAction.arr (np_clip xs low high)
  | PyAction.ints i =>
    PyAction.arr ((List.zip low high).map (fun p => np_clip1 (i : Rat) p.1 p.2))

/-- Model of a jax PRNG key: an opaque splittable token.  A key is either
freshly built from an integer seed (jax.random.PRNGKey) or one of the two
results of a split; this keeps splitting deterministic and collision-free,
which is all the adapter relies on. -/
inductive RngKey where
  | fromSeed (seed : Nat)
  | split0 (parent : RngKey)
  | split1 (parent : RngKey)
  deriving DecidableEq, Repr

/-- Model of jax.random.split (two results, unpacked as in
`rng, self.rng = jrng.split(self.rng)`). -/
def jrng_split (k : RngKey) : RngKey × RngKey := (RngKey.split0 k, RngKey.split1 k)

/-- Model of a jax 0-d numeric array as returned by the bundle's reward
operation; Python's float() extracts its value. -/
structure JNum where
  val : Rat
  deriving DecidableEq, Repr

/-- Model of a jax 0-d boolean array as returned by the bundle's terminal
operation; Python's bool() extracts its value. -/
structure JBool where
  val : Bool
  deriving DecidableEq, Repr

/-- Python float() applied to a jax numeric scalar. -/
def pyFloat (x : JNum) : Rat := x.val

/-- Python bool() applied to a jax boolean scalar. -/
def pyBool (b : JBool) : Bool := b.val

/-- Modelled from the spec (§2, §6): the stateless transition function bundle
(gymnasium.functional.FuncEnv, not under src/) exposing
initial/transition/observation/reward/terminal/state_info/step_info and the
optional render operations, all pure over explicit state. -/
structure FuncEnvT (S RS I Img : Type) where
  initial : RngKey → S
  transition : S → PyAction → RngKey → S
  observation : S → JaxVal
  reward : S → PyAction → S → JNum
  terminal : S → JBool
  state_info : S → I
  step_info : S → PyAction → S → I
  render_init : Unit → RS
  render_image : S → Option RS → RS × Img
  render_close : RS → Unit

/-- Python exceptions the adapter can raise. -/
inductive PyErr where
  | assertionError (msg : String)
  | typeError (msg : String)
  | attributeError
  | notImplementedError
  deriving DecidableEq, Repr

/-- The 5-tuple returned by JaxEnv.step (conversion.py line 90). -/
structure StepOut (I : Type) where
  observation : NpVal
  reward : Rat
  terminated : Bool
  truncated : Bool
  info : I

/-- The mutable fields and stored construction arguments of a JaxEnv
instance.  metadata, reward_range and spec are stored by __init__ but never
read by any operation in the source file, so they are omitted.  state is
Option-valued because it is only assigned by reset (conversion.py line 62). -/
structure JaxEnv (S RS I Img : Type) where
  func_env : FuncEnvT S RS I Img
  observation_space : GymSpace
  action_space : GymSpace
  render_mode : Option String
  is_box_action_space : Bool
  render_state : Option RS
  rng : RngKey
  state : Option S

/-- Model of numpy Generator.integers(low, high) with the default
endpoint=False: the draw is uniform over [low, high), high itself excluded.
The generator state (seeded from process entropy by seeding.np_random(),
which is not under src/ and is modelled from the spec as "a process-level
seed source") is abstracted as an entropy number e; as e ranges over Nat the
draw ranges over exactly [low, high). -/
def np_integers (low high e : Nat) : Nat := low + e % (high - low)

/-- Embedding of JaxEnv.__init__ (conversion.py lines 22-53): stores the
spaces, computes the Box-instance flag once, eagerly builds the render state
when render_mode is "rgb_array", and seeds the jax stream from a default
seed drawn via np_random.integers(0, 2**32 - 1, dtype="uint32"). -/
def JaxEnv.init {S RS I Img : Type} (func_env : FuncEnvT S RS I Img)
    (observation_space action_space : GymSpace) (render_mode : Option String)
    (e : Nat) : JaxEnv S RS I Img :=
  { func_env := func_env
    observation_space := observation_space
    action_space := action_space
    render_mode := render_mode
    is_box_action_space := action_space.isBox
    render_state :=
      if render_mode = some "rgb_array" then some (func_env.render_init ())
      else none
    rng := RngKey.fromSeed (np_integers 0 (2 ^ 32 - 1) e)
    state := none }

/-- Embedding of JaxEnv.reset (conversion.py lines 55-68): reseed the stream
when a seed is given, split it, build the initial state, derive observation
and info from it, convert the observation.  (super().reset(seed=seed) only
seeds the gym.Env np_random field, which nothing in the file reads; it is
not modelled.) -/
def JaxEnv.reset {S RS I Img : Type} (A : JaxEnv S RS I Img)
    (seed : Option Nat) : JaxEnv S RS I Img × Except PyErr (NpVal × I) :=
  let A0 := match seed with
    | some sd => { A with rng := RngKey.fromSeed sd }
    | none => A
  let p := jrng_split A0.rng
  let st := A0.func_env.initial p.1
  let obs := A0.func_env.observation st
  let info := A0.func_env.state_info st
  let A1 := { A0 with state := some st, rng := p.2 }
  match _convert_jax_to_numpy obs with
  | Except.ok w => (A1, Except.ok (w, info))
  | Except.error m => (A1, Except.error (PyErr.typeError m))

/-- Embedding of JaxEnv.step lines 79-90, the code shared by both action
branches: split the stream (line 79, before self.state is read — so reading
an unset state fails only after self.rng was already replaced), compute the
next state, compute the observation FROM THE PRE-TRANSITION self.state
(line 82), reward/terminal/step_info from the next state, commit the next
state, then convert the observation (a conversion error is raised after the
commit). -/
def JaxEnv.stepTail {S RS I Img : Type} (A : JaxEnv S RS I Img)
    (action : PyAction) : JaxEnv S RS I Img × Except PyErr (StepOut I) :=
  let p := jrng_split A.rng
  match A.state with
  | none => ({ A with rng := p.2 }, Except.error PyErr.attributeError)
  | some s =>
    let next_state := A.func_env.transition s action p.1
    let observation := A.func_env.observation s
    let reward := A.func_env.reward s action next_state
    let terminated := A.func_env.terminal next_state
    let info := A.func_env.step_info s action next_state
    let A1 : JaxEnv S RS I Img := { A with state := some next_state, rng := p.2 }
    match _convert_jax_to_numpy observation with
    | Except.ok w =>
      (A1, Except.ok { observation := w, reward := pyFloat reward,
                       terminated := pyBool terminated, truncated := false,
                       info := info })
    | Except.error m => (A1, Except.error (PyErr.typeError m))

/-- Embedding of JaxEnv.step (conversion.py lines 70-90): the branch is
chosen by the stored Box-instance flag; the box branch re-asserts the Box
instance (line 72, a bare assert) and clips, the other branch checks space
membership and raises the invalid-action assertion before anything else. -/
def JaxEnv.step {S RS I Img : Type} (A : JaxEnv S RS I Img)
    (action : PyAction) : JaxEnv S RS I Img × Except PyErr (StepOut I) :=
  if A.is_box_action_space then
    match A.action_space with
    | GymSpace.box low high => JaxEnv.stepTail A (pyClipAction low high action)
    | _ => (A, Except.error (PyErr.assertionError ""))
  else
    if A.action_space.contains action then
      JaxEnv.stepTail A action
    else
      (A, Except.error (PyErr.assertionError (invalidActionMsg action)))

/-- Embedding of JaxEnv.render (conversion.py lines 92-99). -/
def JaxEnv.render {S RS I Img : Type} (A : JaxEnv S RS I Img) :
    JaxEnv S RS I Img × Except PyErr Img :=
  if A.render_mode = some "rgb_array" then
    match A.state with
    | none => (A, Except.error PyErr.attributeError)
    | some s =>
      let pr := A.func_env.render_image s A.render_state
      ({ A with render_state := some pr.1 }, Except.ok pr.2)
  else
    (A, Except.error PyErr.notImplementedError)

/-- Embedding of JaxEnv.close (conversion.py lines 101-104): when a render
state exists it is passed to func_env.render_close and the field is cleared.
The second component reports which resource (if any) was released by this
call, so that release-exactly-once is statable. -/
def JaxEnv.close {S RS I Img : Type} (A : JaxEnv S RS I Img) :
    JaxEnv S RS I Img × Option RS :=
  match A.render_state with
  | some rs =>
    let _ := A.func_env.render_close rs
    ({ A with render_state := none }, some rs)
  | none => (A, none)

/-- The effective action the step body forwards to the transition: the
clipped action in the box branch, the action itself in the membership
branch. -/
def effAction {S RS I Img : Type} (A : JaxEnv S RS I Img) (a : PyAction) :
    PyAction :=
  if A.is_box_action_space then
    pyClipAction A.action_space.lowBounds A.action_space.highBounds a
  else a

/-- An assertion error carrying the invalid-action message shape. -/
def isInvalidActionErr {α : Type} : Except PyErr α → Bool
  | Except.error (PyErr.assertionError _) => true
  | _ => false

/-- Embedding of _ClipAction (clip_action.py lines 22-53): the wrapper stores
the (Box) action space's bound arrays; its constructor asserts the space is a
Box, so the model carries the bounds directly. -/
structure ClipActionWrapper where
  action_space_low : List Rat
  action_space_high : List Rat

/-- _ClipAction.action (clip_action.py line 53):
np.clip(action, self.action_space.low, self.action_space.high). -/
def ClipActionWrapper.action (w : ClipActionWrapper) (a : List Rat) : List Rat :=
  np_clip a w.action_space_low w.action_space_high

/-- Embedding of _VectorClipAction (clip_action.py lines 56-88): the batched
space's bounds are one bound row per sub-environment. -/
structure VectorClipActionWrapper where
  action_space_low : List (List Rat)
  action_space_high : List (List Rat)

/-- np.clip on a batched (two-axis) array against batched bounds. -/
def np_clip2 : List (List Rat) → List (List Rat) → List (List Rat) → List (List Rat)
  | r :: rs, l :: ls, h :: hs => np_clip r l h :: np_clip2 rs ls hs
  | _, _, _ => []

/-- _VectorClipAction.actions (clip_action.py line 88). -/
def VectorClipActionWrapper.actions (w : VectorClipActionWrapper)
    (as : List (List Rat)) : List (List Rat) :=
  np_clip2 as w.action_space_low w.action_space_high

/-- Modelled from the spec: a bounded-real (Box) observation space as used by
the flatten wrapper, carried as its bound arrays (gymnasium.spaces.Box is not
under src/); the space's shape is the common shape of the bounds. -/
structure BoxSpace where
  low : NDArr
  high : NDArr
  deriving DecidableEq, Repr

/-- Model of ndarray.flatten(): one axis of the full size, data unchanged. -/
def np_flatten (x : NDArr) : NDArr := ⟨[x.shape.prod], x.data⟩

/-- Modelled from the spec: gymnasium.spaces.flatten on a Box space passes the
sample through np.asarray(...).flatten() — every axis is collapsed into one. -/
def spaces_flatten (space : BoxSpace) (x : NDArr) : NDArr := np_flatten x

/-- Modelled from the spec: gymnasium.spaces.flatten_space on a Box space
flattens its bound arrays. -/
def flatten_space (space : BoxSpace) : BoxSpace :=
  ⟨np_flatten space.low, np_flatten space.high⟩

/-- Stacking n copies of an array under a new leading axis. -/
def batchArr (x : NDArr) (n : Nat) : NDArr :=
  ⟨n :: x.shape, (List.replicate n x.data).flatten⟩

/-- Modelled from the spec: gymnasium.vector.utils.batch_space on a Box space
prepends the number of environments as a new leading axis. -/
def batch_space (space : BoxSpace) (n : Nat) : BoxSpace :=
  ⟨batchArr space.low n, batchArr space.high n⟩

/-- Embedding of _VectorFlattenObservation (flatten_observation.py lines
56-96): the wrapped vector env exposes single_observation_space and its
batched observation_space = batch_space(single, num_envs). -/
structure VectorFlattenObservation where
  env_single_observation_space : BoxSpace
  num_envs : Nat

/-- The wrapped vector environment's batched observation space, i.e.
self.env.observation_space. -/
def VectorFlattenObservation.env_observation_space
    (w : VectorFlattenObservation) : BoxSpace :=
  batch_space w.env_single_observation_space w.num_envs

/-- flatten_observation.py lines 79-81: the wrapper's declared
single_observation_space. -/
def VectorFlattenObservation.single_observation_space
    (w : VectorFlattenObservation) : BoxSpace :=
  flatten_space w.env_single_observation_space

/-- flatten_observation.py lines 82-84: the wrapper's declared (batched)
observation_space. -/
def VectorFlattenObservation.observation_space
    (w : VectorFlattenObservation) : BoxSpace :=
  batch_space (VectorFlattenObservation.single_observation_space w) w.num_envs

/-- _VectorFlattenObservation.observation (flatten_observation.py line 96):
spaces.flatten(self.env.observation_space, observation) — flattening against
the WHOLE batched space, despite the TODO "Flatten all but vector
dimension". -/
def VectorFlattenObservation.observation (w : VectorFlattenObservation)
    (obs : NDArr) : NDArr :=
  spaces_flatten (VectorFlattenObservation.env_observation_space w) obs

/-- Embedding of _FlattenObservation (flatten_observation.py lines 19-53). -/
structure FlattenObservationW where
  env_observation_space : BoxSpace

/-- flatten_observation.py line 42: the declared flattened space. -/
def FlattenObservationW.observation_space (w : FlattenObservationW) : BoxSpace :=
  flatten_space w.env_observation_space

/-- _FlattenObservation.observation (flatten_observation.py line 53). -/
def FlattenObservationW.observation (w : FlattenObservationW) (obs : NDArr) :
    NDArr :=
  spaces_flatten w.env_observation_space obs

theorem np_clip1_lower (x l h : Rat) (hlh : l ≤ h) : l ≤ np_clip1 x l h := by
  unfold np_clip1 np_minimum np_maximum
  split_ifs <;> linarith

theorem np_clip1_upper (x l h : Rat) : np_clip1 x l h ≤ h := by
  unfold np_clip1 np_minimum np_maximum
  split_ifs with h1 h2 h3
  · exact le_refl h
  · exact le_of_not_le h2
  · exact le_refl h
  · exact le_of_not_le h3

theorem np_clip1_id (x l h : Rat) (h1 : l ≤ x) (h2 : x ≤ h) :
    np_clip1 x l h = x := by
  unfold np_clip1 np_minimum np_maximum
  split_ifs <;> linarith

theorem np_clip_spec (a : List Rat) : ∀ low high : List Rat,
    a.length = low.length → a.length = high.length → leList low high = true →
    leList low (np_clip a low high) = true ∧
    leList (np_clip a low high) high = true ∧
    (leList low a = true → leList a high = true → np_clip a low high = a) := by
  induction a with
  | nil =>
    intro low high hla hlh hb
    cases low with
    | cons l ls => simp at hla
    | nil =>
      cases high with
      | cons h hs => simp at hlh
      | nil => exact ⟨rfl, rfl, fun _ _ => rfl⟩
  | cons x xs ih =>
    intro low high hla hlh hb
    cases low with
    | nil => simp at hla
    | cons l ls =>
      cases high with
      | nil => simp at hlh
      | cons h hs =>
        have hb' : (l ≤ h) ∧ leList ls hs = true := by
          simpa [leList, Bool.and_eq_true] using hb
        obtain ⟨ih1, ih2, ih3⟩ :=
          ih ls hs (by simpa using hla) (by simpa using hlh)
            (by exact hb'.2)
        refine ⟨?_, ?_, ?_⟩
        · simp only [np_clip, leList, Bool.and_eq_true, decide_eq_true_eq]
          exact ⟨np_clip1_lower x l h hb'.1, ih1⟩
        · simp only [np_clip, leList, Bool.and_eq_true, decide_eq_true_eq]
          exact ⟨np_clip1_upper x l h, ih2⟩
        · intro hlo hhi
          have hlo' : (l ≤ x) ∧ leList ls xs = true := by
            simpa [leList, Bool.and_eq_true] using hlo
          have hhi' : (x ≤ h) ∧ leList xs hs = true := by
            simpa [leList, Bool.and_eq_true] using hhi
          simp only [np_clip]
          rw [np_clip1_id x l h hlo'.1 hhi'.1, ih3 hlo'.2 hhi'.2]

theorem stepTail_ok_spec {S RS I Img : Type} {A A' : JaxEnv S RS I Img}
    {a : PyAction} {o : StepOut I}
    (hok : JaxEnv.stepTail A a = (A', Except.ok o)) :
    ∃ s, A.state = some s ∧
      _convert_jax_to_numpy (A.func_env.observation s) = Except.ok o.observation ∧
      o.reward = pyFloat (A.func_env.reward s a
        (A.func_env.transition s a (jrng_split A.rng).1)) ∧
      o.terminated = pyBool (A.func_env.terminal
        (A.func_env.transition s a (jrng_split A.rng).1)) ∧
      o.truncated = false ∧
      o.info = A.func_env.step_info s a
        (A.func_env.transition s a (jrng_split A.rng).1) ∧
      A' = { A with state := some (A.func_env.transition s a (jrng_split A.rng).1),
                    rng := (jrng_split A.rng).2 } := by
  cases hst : A.state with
  | none => simp [JaxEnv.stepTail, hst] at hok
  | some s =>
    cases hconv : _convert_jax_to_numpy (A.func_env.observation s) with
    | error m => simp [JaxEnv.stepTail, hst, hconv] at hok
    | ok w =>
      simp [JaxEnv.stepTail, hst, hconv] at hok
      obtain ⟨hA', ho⟩ := hok
      refine ⟨s, rfl, ?_, ?_, ?_, ?_, ?_, ?_⟩
      · rw [← ho]; exact hconv
      · rw [← ho]
      · rw [← ho]
      · rw [← ho]
      · rw [← ho]
      · exact hA'.symm

theorem step_ok_eff {S RS I Img : Type} {A A' : JaxEnv S RS I Img}
    {a : PyAction} {o : StepOut I}
    (hok : JaxEnv.step A a = (A', Except.ok o)) :
    JaxEnv.stepTail A (effAction A a) = (A', Except.ok o) := by
  cases hb : A.is_box_action_space with
  | true =>
    cases hsp : A.action_space with
    | box l h =>
      rw [JaxEnv.step, hb, hsp] at hok
      simp only [if_true]  at hok
      simpa [effAction, hb, hsp, GymSpace.lowBounds, GymSpace.highBounds]
        using hok
    | discrete n st => simp [JaxEnv.step, hb, hsp] at hok
    | multiBinary n => simp [JaxEnv.step, hb, hsp] at hok
  | false =>
    cases hc : A.action_space.contains a with
    | true =>
      rw [JaxEnv.step, hb] at hok
      simp only [Bool.false_eq_true, if_false, hc, if_true] at hok
      simpa [effAction, hb] using hok
    | false =>
      simp [JaxEnv.step, hb, hc] at hok

theorem stepTail_no_assertion {S RS I Img : Type} (A : JaxEnv S RS I Img)
    (a : PyAction) :
    isInvalidActionErr (JaxEnv.stepTail A a).2 = false := by
  cases hst : A.state with
  | none => simp [JaxEnv.stepTail, hst, isInvalidActionErr]
  | some s =>
    cases hconv : _convert_jax_to_numpy (A.func_env.observation s) with
    | ok w => simp [JaxEnv.stepTail, hst, hconv, isInvalidActionErr]
    | error m => simp [JaxEnv.stepTail, hst, hconv, isInvalidActionErr]

/-- A small concrete function bundle (states, render states, infos and images
are all naturals) used to instantiate the adapter theorems on closed inputs.
The observation encodes the state in the array shape so that pre- and
post-transition observations are visibly different. -/
def cEnv : FuncEnvT Nat Nat Nat Nat where
  initial := fun _ => 0
  transition := fun s _ _ => s + 1
  observation := fun s => JaxVal.arr ⟨[s], []⟩
  reward := fun _ _ s2 => ⟨if s2 = 0 then 0 else 1⟩
  terminal := fun s => ⟨decide (5 ≤ s)⟩
  state_info := fun s => s
  step_info := fun _ _ s2 => s2 + 10
  render_init := fun _ => 7
  render_image := fun s rs => (s + 100, s)
  render_close := fun _ => ()

/-- A concrete observation space (contents irrelevant to the claims). -/
def cObsSp : GymSpace := GymSpace.box [0] [1]

/-- A concrete discrete action space with three actions 0, 1, 2. -/
def cDisc : GymSpace := GymSpace.discrete 3 0

/-- A freshly constructed adapter over the discrete action space. -/
def cA0 : JaxEnv Nat Nat Nat Nat := JaxEnv.init cEnv cObsSp cDisc none 0

/-- The adapter after reset(seed=42): state is some 0. -/
def cA1 : JaxEnv Nat Nat Nat Nat := (JaxEnv.reset cA0 (some 42)).1

/-- A freshly constructed adapter over a Box action space. -/
def cBoxA : JaxEnv Nat Nat Nat Nat :=
  JaxEnv.init cEnv cObsSp (GymSpace.box [-1, -1] [1, 1]) none 0

/-- The concrete step output of step cA1 (ints 1). -/
def cO1 : StepOut Nat :=
  { observation := NpVal.arr ⟨[0], []⟩, reward := 1, terminated := false,
    truncated := false, info := 11 }

/-- Claim C1: for every step call on the adapter after a reset (state is set),
a successful step returns an observation computed from the pre-transition
state s — not from the next state produced by the transition — while the
reward, termination flag and info are all computed with the next state
`transition s a rng` among their inputs. -/
theorem step_observation_from_pre_state {S RS I Img : Type}
    (A : JaxEnv S RS I Img) (a : PyAction) (s : S) (A' : JaxEnv S RS I Img)
    (o : StepOut I) (hs : A.state = some s)
    (hok : JaxEnv.step A a = (A', Except.ok o)) :
    _convert_jax_to_numpy (A.func_env.observation s) = Except.ok o.observation ∧
    o.reward = pyFloat (A.func_env.reward s (effAction A a)
      (A.func_env.transition s (effAction A a) (jrng_split A.rng).1)) ∧
    o.terminated = pyBool (A.func_env.terminal
      (A.func_env.transition s (effAction A a) (jrng_split A.rng).1)) ∧
    o.info = A.func_env.step_info s (effAction A a)
      (A.func_env.transition s (effAction A a) (jrng_split A.rng).1) ∧
    A'.state = some (A.func_env.transition s (effAction A a)
      (jrng_split A.rng).1) := by
  obtain ⟨s0, hs0, h1, h2, h3, h4, h5, h6⟩ := stepTail_ok_spec (step_ok_eff hok)
  rw [hs] at hs0
  injection hs0 with hss
  subst hss
  exact ⟨h1, h2, h3, h5, by rw [h6]⟩

theorem step_observation_from_pre_state_witness :
    (_convert_jax_to_numpy (cEnv.observation 0) = Except.ok cO1.observation ∧
     cO1.reward = pyFloat (cEnv.reward 0 (effAction cA1 (PyAction.ints 1))
       (cEnv.transition 0 (effAction cA1 (PyAction.ints 1)) (jrng_split cA1.rng).1)) ∧
     cO1.terminated = pyBool (cEnv.terminal
       (cEnv.transition 0 (effAction cA1 (PyAction.ints 1)) (jrng_split cA1.rng).1)) ∧
     cO1.info = cEnv.step_info 0 (effAction cA1 (PyAction.ints 1))
       (cEnv.transition 0 (effAction cA1 (PyAction.ints 1)) (jrng_split cA1.rng).1) ∧
     (JaxEnv.step cA1 (PyAction.ints 1)).1.state = some
       (cEnv.transition 0 (effAction cA1 (PyAction.ints 1)) (jrng_split cA1.rng).1)) ∧
    Except.ok cO1.observation ≠
      _convert_jax_to_numpy (cEnv.observation
        (cEnv.transition 0 (effAction cA1 (PyAction.ints 1)) (jrng_split cA1.rng).1)) :=
  ⟨step_observation_from_pre_state cA1 (PyAction.ints 1) 0
      (JaxEnv.step cA1 (PyAction.ints 1)).1 cO1 rfl rfl,
   by simp [cEnv, cO1, _convert_jax_to_numpy]⟩

/-- Claim C3: every successful step returns a 5-tuple whose reward is the
float() coercion of the bundle's reward scalar, whose terminated flag is the
bool() coercion of the bundle's terminal scalar, and whose truncated flag is
false unconditionally — this layer never signals truncation for any action,
state or function bundle. -/
theorem step_coerces_and_never_truncates {S RS I Img : Type}
    (A : JaxEnv S RS I Img) (a : PyAction) (A' : JaxEnv S RS I Img)
    (o : StepOut I) (hok : JaxEnv.step A a = (A', Except.ok o)) :
    o.truncated = false ∧
    ∃ s, A.state = some s ∧
      o.reward = pyFloat (A.func_env.reward s (effAction A a)
        (A.func_env.transition s (effAction A a) (jrng_split A.rng).1)) ∧
      o.terminated = pyBool (A.func_env.terminal
        (A.func_env.transition s (effAction A a) (jrng_split A.rng).1)) := by
  obtain ⟨s, hs, h1, h2, h3, h4, h5, h6⟩ := stepTail_ok_spec (step_ok_eff hok)
  exact ⟨h4, s, hs, h2, h3⟩

theorem step_coerces_and_never_truncates_witness :
    cO1.truncated = false ∧
    ∃ s, cA1.state = some s ∧
      cO1.reward = pyFloat (cEnv.reward s (effAction cA1 (PyAction.ints 2))
        (cEnv.transition s (effAction cA1 (PyAction.ints 2)) (jrng_split cA1.rng).1)) ∧
      cO1.terminated = pyBool (cEnv.terminal
        (cEnv.transition s (effAction cA1 (PyAction.ints 2)) (jrng_split cA1.rng).1)) :=
  step_coerces_and_never_truncates cA1 (PyAction.ints 2)
    (JaxEnv.step cA1 (PyAction.ints 2)).1 cO1 rfl

/-- Claim C4: in step, when the stored Box flag is false (the membership
branch, used for discrete spaces) and the action fails the space-membership
check, the assertion error raised carries the f-string of the offending
value's repr and its type, and the returned adapter is the input adapter
unchanged — the error is raised before the random-stream split and the
transition, so neither the stored state nor the stream is touched. -/
theorem step_invalid_action_atomic {S RS I Img : Type}
    (A : JaxEnv S RS I Img) (a : PyAction)
    (hbox : A.is_box_action_space = false)
    (hmem : A.action_space.contains a = false) :
    JaxEnv.step A a =
      (A, Except.error (PyErr.assertionError
        (PyAction.pyRepr a ++ " (" ++ PyAction.pyTypeName a ++ ") invalid"))) := by
  simp [JaxEnv.step, hbox, hmem, invalidActionMsg]

theorem step_invalid_action_atomic_witness :
    JaxEnv.step cA1 (PyAction.ints 7) =
      (cA1, Except.error (PyErr.assertionError "7 (int) invalid")) :=
  step_invalid_action_atomic cA1 (PyAction.ints 7) rfl rfl

/-- Claim C5: two adapters constructed with identical arguments (same bundle,
spaces and render mode) but with different ambient construction entropy,
each reset with the same explicit seed, return identical results — in
particular identical first observations and identical infos. -/
theorem reset_deterministic_given_seed {S RS I Img : Type}
    (E : FuncEnvT S RS I Img) (os asp : GymSpace) (rm : Option String)
    (e1 e2 sd : Nat) :
    (JaxEnv.reset (JaxEnv.init E os asp rm e1) (some sd)).2 =
    (JaxEnv.reset (JaxEnv.init E os asp rm e2) (some sd)).2 := rfl

/-- Claim C10: the step branch is decided solely by the Box-instance flag
computed once at construction; every non-Box action space (discrete or any
other kind) is routed to the membership-check branch with the action passed
through unclipped, while a Box action space's actions are always clipped and
the invalid-action assertion can never fire in that branch. -/
theorem step_branches_on_box_flag {S RS I Img : Type}
    (E : FuncEnvT S RS I Img) (os sp : GymSpace) (rm : Option String) (e : Nat)
    (A : JaxEnv S RS I Img) (a : PyAction) :
    (JaxEnv.init E os sp rm e).is_box_action_space = GymSpace.isBox sp ∧
    (A.is_box_action_space = false →
      JaxEnv.step A a =
        (if A.action_space.contains a = true then JaxEnv.stepTail A a
         else (A, Except.error (PyErr.assertionError (invalidActionMsg a))))) ∧
    (∀ l h, A.is_box_action_space = true → A.action_space = GymSpace.box l h →
      JaxEnv.step A a = JaxEnv.stepTail A (pyClipAction l h a) ∧
      isInvalidActionErr (JaxEnv.step A a).2 = false) := by
  refine ⟨rfl, ?_, ?_⟩
  · intro hb
    simp [JaxEnv.step, hb]
  · intro l h hb hsp
    have hstep : JaxEnv.step A a = JaxEnv.stepTail A (pyClipAction l h a) := by
      simp [JaxEnv.step, hb, hsp]
    exact ⟨hstep, by rw [hstep]; exact stepTail_no_assertion A _⟩

theorem step_branches_on_box_flag_witness :
    (JaxEnv.init cEnv cObsSp cDisc none 0).is_box_action_space =
      GymSpace.isBox cDisc ∧
    JaxEnv.step cA1 (PyAction.ints 9) =
      (cA1, Except.error (PyErr.assertionError (invalidActionMsg (PyAction.ints 9)))) ∧
    JaxEnv.step cBoxA (PyAction.arr [5, 2]) =
      JaxEnv.stepTail cBoxA (pyClipAction [-1, -1] [1, 1] (PyAction.arr [5, 2])) ∧
    isInvalidActionErr (JaxEnv.step cBoxA (PyAction.arr [5, 2])).2 = false := by
  have t1 := (step_branches_on_box_flag cEnv cObsSp cDisc none 0 cA1
    (PyAction.ints 9)).1
  have t2 := (step_branches_on_box_flag cEnv cObsSp cDisc none 0 cA1
    (PyAction.ints 9)).2.1 rfl
  have t3 := (step_branches_on_box_flag cEnv cObsSp cDisc none 0 cBoxA
    (PyAction.arr [5, 2])).2.2 [-1, -1] [1, 1] rfl rfl
  exact ⟨t1, t2, t3.1, t3.2⟩

/-- Claim C6: for every action over a bounded-real (Box) action space with
coherent bounds, the clip wrapper's per-step transform returns a value
component-wise within [low, high]; and when the action is already
component-wise inside the bounds it is returned unchanged. -/
theorem clip_action_within_bounds (low high a : List Rat)
    (hla : a.length = low.length) (hlh : a.length = high.length)
    (hbounds : leList low high = true) :
    leList low (ClipActionWrapper.action ⟨low, high⟩ a) = true ∧
    leList (ClipActionWrapper.action ⟨low, high⟩ a) high = true ∧
    (leList low a = true → leList a high = true →
      ClipActionWrapper.action ⟨low, high⟩ a = a) :=
  np_clip_spec a low high hla hlh hbounds

/-- The clip wrapper of the spec's scenario: bounds -1 and 1 in each of four
components. -/
def cW : ClipActionWrapper := ⟨[-1, -1, -1, -1], [1, 1, 1, 1]⟩

theorem clip_action_within_bounds_witness :
    (leList [-1, -1, -1, -1] (ClipActionWrapper.action cW [5, 2, -10, 0]) = true ∧
     leList (ClipActionWrapper.action cW [5, 2, -10, 0]) [1, 1, 1, 1] = true ∧
     (leList [-1, -1, -1, -1] [5, 2, -10, 0] = true →
      leList [5, 2, -10, 0] [1, 1, 1, 1] = true →
      ClipActionWrapper.action cW [5, 2, -10, 0] = [5, 2, -10, 0])) ∧
    ClipActionWrapper.action cW [5, 2, -10, 0] = [1, 1, -1, 0] ∧
    ClipActionWrapper.action cW [0, -1, 1, 0] = [0, -1, 1, 0] :=
  ⟨clip_action_within_bounds [-1, -1, -1, -1] [1, 1, 1, 1] [5, 2, -10, 0]
      rfl rfl (by decide),
   by decide, by decide⟩

/-- A single-instance observation space of shape (2,2), and its 3-environment
batch: the wrapped vector env's observations have shape (3,2,2). -/
def cSingleSpace : BoxSpace := ⟨⟨[2, 2], [0, 0, 0, 0]⟩, ⟨[2, 2], [1, 1, 1, 1]⟩⟩

/-- The batched flatten wrapper over three copies of cSingleSpace. -/
def cVFO : VectorFlattenObservation := ⟨cSingleSpace, 3⟩

/-- A batched observation of shape (3,2,2) conforming to the wrapped vector
environment's observation space. -/
def cBatchedObs : NDArr := ⟨[3, 2, 2], [0, 1, 0, 1, 0, 1, 0, 1, 0, 1, 0, 1]⟩

/-- Claim C2 (evaluated at a failing input): the batched observation-flatten
wrapper declares a batched observation space of shape (3, 4) — batch of the
flattened single-instance space — but its observation method flattens the
whole batched array into shape (12,), so the leading batch axis is NOT
preserved and the output does not match the declared space.  This
contradicts the wrapper's own docstring (obs.shape (8, 27648) after
wrapping) and the TODO "Flatten all but vector dimension" at
flatten_observation.py line 95. -/
theorem vector_flatten_collapses_batch_axis :
    (VectorFlattenObservation.observation cVFO cBatchedObs).shape = [12] ∧
    (VectorFlattenObservation.observation_space cVFO).low.shape = [3, 4] ∧
    (VectorFlattenObservation.observation cVFO cBatchedObs).shape ≠
      (VectorFlattenObservation.observation_space cVFO).low.shape ∧
    (VectorFlattenObservation.observation cVFO cBatchedObs).shape.head? ≠
      some cVFO.num_envs := by
  refine ⟨rfl, rfl, by decide, by decide⟩

/-- Claim C8 counterexample: an adapter configured for image-array rendering
has its render-state resource already at construction time, before any call
to render — the resource is acquired eagerly in __init__ (conversion.py
lines 45-48), not lazily on the first render. -/
theorem render_state_exists_before_first_render :
    (JaxEnv.init cEnv cObsSp cDisc (some "rgb_array") 0).render_state ≠
      none := by
  decide

/-- Claim C8 (amended): when configured for image-array rendering the
render-state resource is acquired eagerly at construction (it already exists
before any render call); close releases it exactly once and clears the
field, and a second close releases nothing, changes nothing and raises
nothing. -/
theorem render_state_eager_acquire_release_once {S RS I Img : Type}
    (E : FuncEnvT S RS I Img) (os sp : GymSpace) (e : Nat) :
    (JaxEnv.init E os sp (some "rgb_array") e).render_state =
      some (E.render_init ()) ∧
    (JaxEnv.close (JaxEnv.init E os sp (some "rgb_array") e)).2 =
      some (E.render_init ()) ∧
    (JaxEnv.close (JaxEnv.init E os sp (some "rgb_array") e)).1.render_state =
      none ∧
    JaxEnv.close (JaxEnv.close (JaxEnv.init E os sp (some "rgb_array") e)).1 =
      ((JaxEnv.close (JaxEnv.init E os sp (some "rgb_array") e)).1, none) :=
  ⟨rfl, rfl, rfl, rfl⟩

/-- Claim C9 counterexample: the top value 2^32 - 1 is never supplied as the
default construction seed — np_random.integers(0, 2**32 - 1) excludes its
upper bound (numpy's default endpoint=False), so the default seed is NOT
drawn from the full 32-bit unsigned range. -/
theorem default_seed_never_top :
    ¬ ∃ e : Nat, (JaxEnv.init cEnv cObsSp cDisc none e).rng =
      RngKey.fromSeed (2 ^ 32 - 1) := by
  rintro ⟨e, he⟩
  simp [JaxEnv.init, np_integers] at he
  have hlt : e % (2 ^ 32 - 1) < 2 ^ 32 - 1 :=
    Nat.mod_lt e (by norm_num)
  omega

/-- Claim C9 (amended): the default construction seed is drawn from
[0, 2^32 - 2]: every integer strictly below 2^32 - 1 is a possible default
seed (for a suitable ambient entropy draw), and every default seed is
strictly below 2^32 - 1. -/
theorem default_seed_range {S RS I Img : Type} (E : FuncEnvT S RS I Img)
    (os sp : GymSpace) (rm : Option String) :
    (∀ k : Nat, k < 2 ^ 32 - 1 →
      ∃ e : Nat, (JaxEnv.init E os sp rm e).rng = RngKey.fromSeed k) ∧
    (∀ e : Nat, ∃ k : Nat,
      (JaxEnv.init E os sp rm e).rng = RngKey.fromSeed k ∧ k < 2 ^ 32 - 1) := by
  constructor
  · intro k hk
    refine ⟨k, ?_⟩
    simp only [JaxEnv.init, np_integers]
    rw [Nat.sub_zero, Nat.mod_eq_of_lt hk, Nat.zero_add]
  · intro e
    refine ⟨e % (2 ^ 32 - 1), ?_, Nat.mod_lt e (by norm_num)⟩
    simp [JaxEnv.init, np_integers]

theorem default_seed_range_witness :
    ∃ e : Nat, (JaxEnv.init cEnv cObsSp cDisc none e).rng =
      RngKey.fromSeed 7 :=
  (default_seed_range cEnv cObsSp cDisc none).1 7 (by norm_num)
